import Mathlib

/-!
Shallow embedding of the request admission pipeline and the user endpoints of
the Acquisitions backend (src/middleware/auth.middleware.js,
src/middleware/security.middleware.js, src/routes/user.routes.js,
user controller and users service, validation schemas).
JavaScript objects become structures; `undefined` becomes `Option`;
a thrown exception becomes the `error` branch of `Except`; the dynamic
method dispatch on the Arcjet reason object is modelled by name, so that a
call to a method the object does not have yields a TypeError, exactly as in
JavaScript.
-/

namespace Acquisitions

/-- A leveled structured log record as accepted by the logger sink. -/
structure LogEntry where
  level : String
  msg : String
  ip : Option String := none
  userAgent : Option String := none
  path : Option String := none
  errCtx : Option String := none
deriving Repr, DecidableEq

/-- The request-scoped principal attached as `req.user` (id, email, role). -/
structure Principal where
  id : Nat
  email : String
  role : String
deriving Repr, DecidableEq

/-- The decoded JWT payload returned by `jwttoken.verify`. -/
structure Payload where
  id : Nat
  email : String
  role : String
deriving Repr, DecidableEq

/-- The parts of the inbound request read by `attachUserFromToken`:
the `token` cookie, the `Authorization` header, and the ip/path used in the
warning log. -/
structure AuthRequest where
  cookieToken : Option String
  authHeader : Option String
  ip : String
  path : String
deriving Repr, DecidableEq

/-- Result of running the identity resolver: the attached `req.user`, the
log records emitted, whether `next()` was called, and the status of a
response sent by the resolver itself (always `none`: it never responds). -/
structure ResolverResult where
  user : Option Principal
  logs : List LogEntry
  nextCalled : Bool
  responseStatus : Option Nat
deriving Repr, DecidableEq

/-- Credential extraction of `attachUserFromToken` steps 1-2: prefer the
`token` cookie; fall back to `Authorization: Bearer <token>`.  An empty
string is falsy in JavaScript, so it counts as no token. -/
def extractToken (req : AuthRequest) : Option String :=
  let fromCookie := match req.cookieToken with
    | some t => t
    | none => ""
  let tok :=
    if fromCookie = "" then
      match req.authHeader with
      | some h => if h.startsWith "Bearer " then h.drop 7 else ""
      | none => ""
    else fromCookie
  if tok = "" then none else some tok

/-- Function attachUserFromToken from auth.middleware.js.  `verify` stands for
`jwttoken.verify`, which either returns the decoded payload or throws. -/
def attachUserFromToken (verify : String → Except String Payload)
    (req : AuthRequest) : ResolverResult :=
  match extractToken req with
  | none =>
      { user := none, logs := [], nextCalled := true, responseStatus := none }
  | some t =>
      match verify t with
      | .ok p =>
          { user := some ⟨p.id, p.email, p.role⟩, logs := [],
            nextCalled := true, responseStatus := none }
      | .error e =>
          { user := none,
            logs := [{ level := "warn", msg := "Invalid or expired JWT token",
                       ip := some req.ip, path := some req.path,
                       errCtx := some e }],
            nextCalled := true, responseStatus := none }

/-! ## Security middleware (admission controller) -/

/-- The boolean signals carried by the Arcjet decision reason object. -/
structure ReasonFlags where
  isBot : Bool
  isShield : Bool
  isRateLimit : Bool
deriving Repr, DecidableEq

/-- The decision returned by `client.protect(req)`. -/
structure Decision where
  denied : Bool
  reason : ReasonFlags
deriving Repr, DecidableEq

/-- JavaScript method dispatch on the reason object: the object has the
methods `isBot`, `isShield` and `isRateLimit`; calling any other name is a
TypeError, which the surrounding `try` turns into the catch branch. -/
def callReasonMethod (r : ReasonFlags) (m : String) : Except String Bool :=
  if m = "isBot" then .ok r.isBot
  else if m = "isShield" then .ok r.isShield
  else if m = "isRateLimit" then .ok r.isRateLimit
  else .error ("TypeError: decision.reason." ++ m ++ " is not a function")

/-- The `limit` and `message` variables after the role switch.  The switch
in security.middleware.js has cases for admin, user and guest and no
default, so both stay `undefined` for any other role value. -/
structure Tier where
  limit : Option Nat
  message : Option String
deriving Repr, DecidableEq

def tierFor (role : String) : Tier :=
  if role = "admin" then
    ⟨some 20, some "Admin request limit exceeded (20 per minute). Slow Down."⟩
  else if role = "user" then
    ⟨some 10, some "User request limit exceeded (10 per minute). Slow Down."⟩
  else if role = "guest" then
    ⟨some 5, some "Guest request limit exceeded (5 per minute). Slow Down."⟩
  else ⟨none, none⟩

/-- Role lookup `req.user?.role || 'guest'`: guest when there is no principal or its
role is falsy (the empty string). -/
def roleOf (user : Option Principal) : String :=
  match user with
  | some u => if u.role = "" then "guest" else u.role
  | none => "guest"

/-- The options object passed to `slidingWindow(...)`.  The source spells
the rule-name option `nam` and gives it the single-quoted literal
`$\x7brole\x7d-rate-limit` (single quotes do not interpolate in
JavaScript), so the value is the same literal for every role. -/
structure RuleConfig where
  node : String
  interval : String
  max : Option Nat
  nam : String
deriving Repr, DecidableEq

def ruleConfig (role : String) : RuleConfig :=
  { node := "LIVE", interval := "1m", max := (tierFor role).limit,
    nam := "$\x7brole\x7d-rate-limit" }

/-- The parts of the request read by `securityMiddleware`. -/
structure SecRequest where
  user : Option Principal
  ip : String
  userAgent : Option String
  path : String
deriving Repr, DecidableEq

/-- A JSON error response `res.status(s).json({error/errors, message})`. -/
structure ErrorResponse where
  status : Nat
  error : String
  message : String
deriving Repr, DecidableEq

/-- Result of running the security middleware: the response it sent (if
any), whether `next()` was called, the warning logs, and the console error
log from the catch branch. -/
structure SecResult where
  response : Option ErrorResponse
  nextCalled : Bool
  warnLogs : List LogEntry
  consoleErrors : List String
deriving Repr, DecidableEq

def secWarn (req : SecRequest) (msg : String) : LogEntry :=
  { level := "warn", msg := msg, ip := some req.ip,
    userAgent := req.userAgent, path := some req.path }

/-- The `try` block of `securityMiddleware`: choose the tier from the role,
build the sliding-window rule, await the provider decision, and walk the
three `decision.isDenied() && decision.reason.<method>()` tests, preserving
the short-circuit of `&&`.  The second test calls the misspelled method
`isSheild`, which does not exist on the reason object.  A thrown error is
the `Except.error` branch. -/
def securityBody (req : SecRequest)
    (provider : RuleConfig → Except String Decision) :
    Except String SecResult :=
  let role := roleOf req.user
  let config := ruleConfig role
  match provider config with
  | .error e => .error e
  | .ok decision =>
    match (if decision.denied then callReasonMethod decision.reason "isBot"
           else .ok false) with
    | .error e => .error e
    | .ok c1 =>
      if c1 then
        .ok { response := some ⟨403, "Forbidden", "Automated requests are not allowed."⟩,
              nextCalled := false,
              warnLogs := [secWarn req "Bot request blocked"],
              consoleErrors := [] }
      else
        match (if decision.denied then callReasonMethod decision.reason "isSheild"
               else .ok false) with
        | .error e => .error e
        | .ok c2 =>
          if c2 then
            .ok { response := some ⟨403, "Forbidden", "Request blocked by security policy."⟩,
                  nextCalled := false,
                  warnLogs := [secWarn req "Shield blocked request"],
                  consoleErrors := [] }
          else
            match (if decision.denied then callReasonMethod decision.reason "isRateLimit"
                   else .ok false) with
            | .error e => .error e
            | .ok c3 =>
              if c3 then
                .ok { response := some ⟨403, "Forbidden", "Too many requests."⟩,
                      nextCalled := false,
                      warnLogs := [secWarn req "Rate limit exceeded"],
                      consoleErrors := [] }
              else
                .ok { response := none, nextCalled := true, warnLogs := [],
                      consoleErrors := [] }

/-- Function securityMiddleware: the `try` body, with the catch branch turning any
thrown error into a 500 response after `console.error`. -/
def securityMiddleware (req : SecRequest)
    (provider : RuleConfig → Except String Decision) : SecResult :=
  match securityBody req provider with
  | .ok r => r
  | .error e =>
      { response := some ⟨500, "Internal Server error",
                          "Something went wrong with security middleware"⟩,
        nextCalled := false, warnLogs := [],
        consoleErrors := ["Arcjet middleware error:" ++ e] }

/-! ## Users: model, service, validation, controller, routes -/

/-- A stored row of the `users` table (user.model.js), password included. -/
structure UserRow where
  id : Nat
  name : String
  email : String
  password : String
  role : String
  created_at : Nat
  updated_at : Nat
deriving Repr, DecidableEq

/-- The projection used by every select/returning clause of
users.service.js: id, email, name, role, created_at, updated_at - and
nothing else, in particular no password. -/
structure ProjectedUser where
  id : Nat
  email : String
  name : String
  role : String
  created_at : Nat
  updated_at : Nat
deriving Repr, DecidableEq

def projectUser (u : UserRow) : ProjectedUser :=
  ⟨u.id, u.email, u.name, u.role, u.created_at, u.updated_at⟩

/-- The key/value pairs of a serialized `ProjectedUser`, mirroring the
field list of the drizzle projection. -/
def projFields (u : ProjectedUser) : List (String × String) :=
  [("id", toString u.id), ("email", u.email), ("name", u.name),
   ("role", u.role), ("created_at", toString u.created_at),
   ("updated_at", toString u.updated_at)]

/-- users.service.js `getAllUsers`: select the projection from all rows. -/
def getAllUsers (db : List UserRow) : List ProjectedUser :=
  db.map projectUser

/-- users.service.js `getUserById`: first row with the id, projected;
`null` when there is none. -/
def getUserByIdService (db : List UserRow) (id : Nat) : Option ProjectedUser :=
  (db.find? (fun u => u.id = id)).map projectUser

/-- The validated update payload (name/email/role, each optional). -/
structure Updates where
  name : Option String
  email : Option String
  role : Option String
deriving Repr, DecidableEq

/-- Row update `db.update(users).set({...updates, updated_at: new Date()})` applied to
one row. -/
def applyUpdates (u : UserRow) (upd : Updates) (now : Nat) : UserRow :=
  { u with name := upd.name.getD u.name, email := upd.email.getD u.email,
           role := upd.role.getD u.role, updated_at := now }

/-- users.service.js `updateUser`: check existence (404 error when the id
is absent), update the row, return the new table and the updated row under
the password-free projection. -/
def updateUserService (db : List UserRow) (id : Nat) (upd : Updates)
    (now : Nat) : Except String (List UserRow × ProjectedUser) :=
  match db.find? (fun u => u.id = id) with
  | none => .error "User not found"
  | some u =>
      let newDb := db.map (fun v => if v.id = id then applyUpdates v upd now else v)
      .ok (newDb, projectUser (applyUpdates u upd now))

/-- users.service.js `deleteUser`: check existence, delete the rows with
the id, return the new table and the deleted row projected. -/
def deleteUserService (db : List UserRow) (id : Nat) :
    Except String (List UserRow × ProjectedUser) :=
  match db.find? (fun u => u.id = id) with
  | none => .error "User not found"
  | some u => .ok (db.filter (fun v => ¬ v.id = id), projectUser u)

/-! ### Validation schemas (users.validation.js) -/

/-- Schema userIdSchema: a string matching the digits-only pattern,
parsed to an integer base 10. -/
def parseUserId (s : String) : Option Nat :=
  if s.data ≠ [] ∧ s.data.all Char.isDigit then
    some (s.data.foldl (fun n c => 10 * n + (c.toNat - 48)) 0)
  else none

/-- Enum `z.enum(["user", "admin"])`: the only role values the update schema
accepts. -/
def validRole (r : String) : Bool :=
  r = "user" || r = "admin"

/-- Field check `name: z.string().min(2).max(150).trim().optional()`. -/
def checkName : Option String → Option (Option String)
  | none => some none
  | some s => if 2 ≤ s.length ∧ s.length ≤ 150 then some (some s.trim) else none

/-- The email-format test of `z.string().email()`; its exact regular
expression lives inside the external zod library, abstracted here as
requiring an @ sign. -/
def emailFormatOk (s : String) : Bool :=
  s.contains '@'

/-- Field check `email: z.string().email().max(220).toLowerCase().trim().optional()`. -/
def checkEmail : Option String → Option (Option String)
  | none => some none
  | some s =>
      if emailFormatOk s ∧ s.length ≤ 220 then some (some (s.toLower.trim))
      else none

/-- Field check `role: z.enum(["user", "admin"]).optional()`. -/
def checkRole : Option String → Option (Option String)
  | none => some none
  | some r => if validRole r then some (some r) else none

/-- The raw request body fields the update schema looks at. -/
structure RawBody where
  name : Option String
  email : Option String
  role : Option String
deriving Repr, DecidableEq

/-- Parse updateUserSchema.safeParse: each field validated as declared, plus
the refinement that at least one field is provided. -/
def parseUpdateBody (b : RawBody) : Option Updates :=
  match checkName b.name, checkEmail b.email, checkRole b.role with
  | some n, some e, some r =>
      if n.isSome ∨ e.isSome ∨ r.isSome then some ⟨n, e, r⟩ else none
  | _, _, _ => none

/-! ### Controllers (user.controller.js) -/

/-- Response of the list-all-users endpoint `fetchAllUsers`: `res.json`
with status 200 and the full projected user list. -/
structure UsersListResponse where
  status : Nat
  message : String
  users : List ProjectedUser
  count : Nat
deriving Repr, DecidableEq

/-- user.controller.js `fetchAllUsers`: no guard, no look at `req.user`;
returns message, the projected users and their count.  The request
principal is in scope (as `req` is) but never read. -/
def fetchAllUsers (db : List UserRow) (_requester : Option Principal) :
    UsersListResponse :=
  { status := 200, message := "Successfully retrieved users",
    users := getAllUsers db, count := (getAllUsers db).length }

/-- Outcome of the update controller: response status, the table after the
call, and whether the persistence layer (`updateUserService`) was
invoked. -/
structure UpdateOutcome where
  status : Nat
  message : String
  db : List UserRow
  serviceCalled : Bool
deriving Repr, DecidableEq

/-- user.controller.js `updateUser`: validate params and body, require a
requester, enforce admin-or-self, forbid non-admin role changes, then call
the service; a not-found error from the service becomes 404. -/
def updateUserCtrl (db : List UserRow) (paramId : String) (body : RawBody)
    (requester : Option Principal) (now : Nat) : UpdateOutcome :=
  match parseUserId paramId with
  | none => ⟨400, "Validation failed", db, false⟩
  | some id =>
    match parseUpdateBody body with
    | none => ⟨400, "Validation failed", db, false⟩
    | some updates =>
      match requester with
      | none => ⟨401, "Unauthorized", db, false⟩
      | some rq =>
        let isAdmin := rq.role = "admin"
        let isSelf := rq.id = id
        if ¬ isAdmin ∧ ¬ isSelf then
          ⟨403, "You can only change your own information", db, false⟩
        else if ¬ isAdmin ∧ updates.role.isSome then
          ⟨403, "Only admin users can change roles", db, false⟩
        else
          match updateUserService db id updates now with
          | .error _ => ⟨404, "User not found", db, true⟩
          | .ok (newDb, _) => ⟨200, "User updated successfully", newDb, true⟩

/-! ### Routes (user.routes.js) -/

/-- A mounted route: method, path, guard middleware chain, handler. -/
structure Route where
  method : String
  path : String
  guards : List String
  handler : String
deriving Repr, DecidableEq

/-- The user router: GET / carries no guard; the id routes carry
`requireAuth`. -/
def userRoutes : List Route :=
  [⟨"GET", "/", [], "fetchAllUsers"⟩,
   ⟨"GET", "/:id", ["requireAuth"], "getUserById"⟩,
   ⟨"PUT", "/:id", ["requireAuth"], "updateUser"⟩,
   ⟨"DELETE", "/:id", ["requireAuth"], "deleteUser"⟩]

/-! ## Helper lemmas -/

lemma callReasonMethod_isBot (r : ReasonFlags) :
    callReasonMethod r "isBot" = .ok r.isBot := rfl

lemma callReasonMethod_isSheild (r : ReasonFlags) :
    callReasonMethod r "isSheild" =
      .error "TypeError: decision.reason.isSheild is not a function" := rfl

lemma callReasonMethod_isRateLimit (r : ReasonFlags) :
    callReasonMethod r "isRateLimit" = .ok r.isRateLimit := rfl

/-! ## Claims -/

/-- C1, as stated, is false: the role switch has no default case, so a role
value outside admin/user/guest leaves the limit undefined instead of
applying the guest tier with max 5. -/
theorem unmapped_role_does_not_get_guest_tier :
    ¬ ((tierFor "moderator").limit = some 5) := by decide

/-- C1 (amended): admin maps to max 20, user to max 10, and the guest tier
with max 5 applies when the role is exactly guest or when no principal or a
falsy role is attached; the window is one minute throughout; but any other
role value leaves both the limit and the message undefined, since the
switch has no default case. -/
theorem tier_table_amended :
    (tierFor "admin").limit = some 20
    ∧ (tierFor "user").limit = some 10
    ∧ (tierFor "guest").limit = some 5
    ∧ roleOf none = "guest"
    ∧ (∀ u : Principal, u.role = "" → roleOf (some u) = "guest")
    ∧ (∀ r : String, (ruleConfig r).interval = "1m")
    ∧ (∀ r : String, r ≠ "admin" → r ≠ "user" → r ≠ "guest" →
        (tierFor r).limit = none ∧ (tierFor r).message = none) := by
  refine ⟨by decide, by decide, by decide, rfl, ?_, ?_, ?_⟩
  · intro u h
    simp [roleOf, h]
  · intro r
    rfl
  · intro r h1 h2 h3
    simp [tierFor, h1, h2, h3]

/-- Witness for C1 at the role value moderator. -/
theorem tier_table_amended_witness :
    (tierFor "moderator").limit = none ∧ (tierFor "moderator").message = none :=
  tier_table_amended.2.2.2.2.2.2 "moderator" (by decide) (by decide) (by decide)

/-- C2: the identity resolver is total and never terminates a request: it
always calls next and sends no response; with no credential it attaches no
principal and logs nothing; with a credential the verifier rejects, it
attaches no principal (indistinguishable from no credential) and emits
exactly one warning log carrying ip and path. -/
theorem resolver_total_never_rejects
    (verify : String → Except String Payload) (req : AuthRequest) :
    (attachUserFromToken verify req).nextCalled = true
    ∧ (attachUserFromToken verify req).responseStatus = none
    ∧ (extractToken req = none →
        (attachUserFromToken verify req).user = none
        ∧ (attachUserFromToken verify req).logs = [])
    ∧ (∀ t e, extractToken req = some t → verify t = .error e →
        attachUserFromToken verify req =
          { user := none,
            logs := [{ level := "warn", msg := "Invalid or expired JWT token",
                       ip := some req.ip, path := some req.path,
                       errCtx := some e }],
            nextCalled := true, responseStatus := none }) := by
  cases h : extractToken req with
  | none =>
      simp [attachUserFromToken, h]
  | some t =>
      cases hv : verify t with
      | ok p =>
          simp [attachUserFromToken, h, hv]
          intro t' e ht'
          subst ht'
          simp [hv]
      | error e =>
          simp [attachUserFromToken, h, hv]
          intro t' e' ht' hv'
          subst ht'
          rw [hv] at hv'
          simp_all

/-- Witness for C2: a present but expired credential resolves to the
anonymous principal with exactly one warning log. -/
theorem resolver_total_never_rejects_witness :
    attachUserFromToken (fun _ => .error "jwt expired")
        ⟨some "tok", none, "127.0.0.1", "/api/users"⟩ =
      { user := none,
        logs := [{ level := "warn", msg := "Invalid or expired JWT token",
                   ip := some "127.0.0.1", path := some "/api/users",
                   errCtx := some "jwt expired" }],
        nextCalled := true, responseStatus := none } :=
  (resolver_total_never_rejects (fun _ => .error "jwt expired")
      ⟨some "tok", none, "127.0.0.1", "/api/users"⟩).2.2.2
    "tok" "jwt expired" rfl rfl

/-- C3 is broken by the code: a bot denial does produce the specified 403
with its warning log, but a shield-only denial and a rate-limit-only denial
both hit the misspelled method call isSheild, whose TypeError lands in the
catch branch: the response is 500 with the generic message and no warning
log is emitted. -/
theorem shield_and_ratelimit_denials_yield_500 :
    securityMiddleware ⟨none, "9.9.9.9", some "curl", "/api"⟩
        (fun _ => .ok ⟨true, ⟨true, false, false⟩⟩) =
      { response := some ⟨403, "Forbidden", "Automated requests are not allowed."⟩,
        nextCalled := false,
        warnLogs := [{ level := "warn", msg := "Bot request blocked",
                       ip := some "9.9.9.9", userAgent := some "curl",
                       path := some "/api" }],
        consoleErrors := [] }
    ∧ securityMiddleware ⟨none, "9.9.9.9", some "curl", "/api"⟩
        (fun _ => .ok ⟨true, ⟨false, true, false⟩⟩) =
      { response := some ⟨500, "Internal Server error",
                          "Something went wrong with security middleware"⟩,
        nextCalled := false, warnLogs := [],
        consoleErrors :=
          ["Arcjet middleware error:TypeError: decision.reason.isSheild is not a function"] }
    ∧ securityMiddleware ⟨none, "9.9.9.9", some "curl", "/api"⟩
        (fun _ => .ok ⟨true, ⟨false, false, true⟩⟩) =
      { response := some ⟨500, "Internal Server error",
                          "Something went wrong with security middleware"⟩,
        nextCalled := false, warnLogs := [],
        consoleErrors :=
          ["Arcjet middleware error:TypeError: decision.reason.isSheild is not a function"] } := by
  refine ⟨rfl, rfl, rfl⟩

/-- C4 is broken by the code: the bot signal does win over every other
flag combination, but when the bot flag is false and the shield flag is
true the reported outcome is not the shield reason: the misspelled
isSheild call raises a TypeError and the request ends in a 500, so the
rate-limit reason is unreachable as well. -/
theorem deny_reason_priority_broken :
    (∀ s r : Bool,
      securityMiddleware ⟨none, "9.9.9.9", some "curl", "/api"⟩
          (fun _ => .ok ⟨true, ⟨true, s, r⟩⟩) =
        { response := some ⟨403, "Forbidden", "Automated requests are not allowed."⟩,
          nextCalled := false,
          warnLogs := [{ level := "warn", msg := "Bot request blocked",
                         ip := some "9.9.9.9", userAgent := some "curl",
                         path := some "/api" }],
          consoleErrors := [] })
    ∧ securityMiddleware ⟨none, "9.9.9.9", some "curl", "/api"⟩
        (fun _ => .ok ⟨true, ⟨false, true, true⟩⟩) =
      { response := some ⟨500, "Internal Server error",
                          "Something went wrong with security middleware"⟩,
        nextCalled := false, warnLogs := [],
        consoleErrors :=
          ["Arcjet middleware error:TypeError: decision.reason.isSheild is not a function"] } := by
  refine ⟨?_, rfl⟩
  intro s r
  cases s <;> cases r <;> rfl

/-- C5: the admission controller never silently forwards a denied request:
its outcome is exactly one of calling next with no response, a response
with status 403, or a response with status 500; next is called only when
the provider returned an allow decision; and for every denied decision,
whatever its flags, next is not called. -/
theorem admission_never_forwards_denied (req : SecRequest)
    (provider : RuleConfig → Except String Decision) :
    (((securityMiddleware req provider).nextCalled = true
       ∧ (securityMiddleware req provider).response = none)
     ∨ ((securityMiddleware req provider).nextCalled = false
        ∧ ∃ resp, (securityMiddleware req provider).response = some resp
          ∧ (resp.status = 403 ∨ resp.status = 500)))
    ∧ ((securityMiddleware req provider).nextCalled = true →
        ∃ d, provider (ruleConfig (roleOf req.user)) = .ok d ∧ d.denied = false)
    ∧ (∀ d, provider (ruleConfig (roleOf req.user)) = .ok d → d.denied = true →
        (securityMiddleware req provider).nextCalled = false) := by
  cases hp : provider (ruleConfig (roleOf req.user)) with
  | error e =>
      have hm : securityMiddleware req provider =
          { response := some ⟨500, "Internal Server error",
                              "Something went wrong with security middleware"⟩,
            nextCalled := false, warnLogs := [],
            consoleErrors := ["Arcjet middleware error:" ++ e] } := by
        simp [securityMiddleware, securityBody, hp]
      simp [hm, hp]
  | ok d =>
      cases hd : d.denied with
      | false =>
          have hm : securityMiddleware req provider =
              { response := none, nextCalled := true, warnLogs := [],
                consoleErrors := [] } := by
            simp [securityMiddleware, securityBody, hp, hd]
          simp [hm, hp, hd]
      | true =>
          cases hb : d.reason.isBot with
          | true =>
              have hm : securityMiddleware req provider =
                  { response := some ⟨403, "Forbidden",
                                      "Automated requests are not allowed."⟩,
                    nextCalled := false,
                    warnLogs := [secWarn req "Bot request blocked"],
                    consoleErrors := [] } := by
                simp [securityMiddleware, securityBody, hp, hd,
                      callReasonMethod_isBot, hb]
              simp [hm, hp]
          | false =>
              have hm : securityMiddleware req provider =
                  { response := some ⟨500, "Internal Server error",
                                      "Something went wrong with security middleware"⟩,
                    nextCalled := false, warnLogs := [],
                    consoleErrors :=
                      ["Arcjet middleware error:" ++
                        "TypeError: decision.reason.isSheild is not a function"] } := by
                simp [securityMiddleware, securityBody, hp, hd,
                      callReasonMethod_isBot, hb, callReasonMethod_isSheild]
              simp [hm, hp]

/-- Witness for C5: a concrete denied decision with no reason flag set
does not reach the downstream handler. -/
theorem admission_never_forwards_denied_witness :
    (securityMiddleware ⟨none, "8.8.8.8", none, "/"⟩
        (fun _ => .ok ⟨true, ⟨false, false, false⟩⟩)).nextCalled = false :=
  (admission_never_forwards_denied ⟨none, "8.8.8.8", none, "/"⟩
      (fun _ => .ok ⟨true, ⟨false, false, false⟩⟩)).2.2
    ⟨true, ⟨false, false, false⟩⟩ rfl rfl

/-- C6: when the decision provider throws, the controller makes exactly one
call and no retry, answers 500 with the generic message, logs the raw
error on the console, and next is not called. -/
theorem provider_failure_yields_500 (req : SecRequest) (e : String) :
    securityMiddleware req (fun _ => .error e) =
      { response := some ⟨500, "Internal Server error",
                          "Something went wrong with security middleware"⟩,
        nextCalled := false, warnLogs := [],
        consoleErrors := ["Arcjet middleware error:" ++ e] } := rfl

/-- C7 is broken by the code: the sliding-window options do carry the
1-minute window and the tier max, but the rule-name option is misspelled
nam and its value is the uninterpolated single-quoted literal, so the
queries of any two roles carry exactly the same identifier. -/
theorem rule_key_identical_across_roles :
    (ruleConfig "admin").nam = (ruleConfig "user").nam
    ∧ (ruleConfig "admin").nam = (ruleConfig "guest").nam
    ∧ (ruleConfig "admin").interval = "1m"
    ∧ (ruleConfig "user").interval = "1m"
    ∧ (ruleConfig "guest").interval = "1m"
    ∧ (ruleConfig "admin").max = some 20
    ∧ (ruleConfig "user").max = some 10
    ∧ (ruleConfig "guest").max = some 5 := by
  refine ⟨rfl, rfl, rfl, rfl, rfl, ?_, ?_, ?_⟩ <;> decide

/-- C8: the list-all-users route GET / is mounted with no guard, and its
handler is independent of the resolved principal: any two admitted
requests, whatever principal each carries, get the same status-200
response listing the projection of every stored user. -/
theorem list_users_unguarded_and_principal_independent :
    (∃ r ∈ userRoutes, r.method = "GET" ∧ r.path = "/"
        ∧ r.handler = "fetchAllUsers" ∧ r.guards = [])
    ∧ (∀ (db : List UserRow) (u₁ u₂ : Option Principal),
        fetchAllUsers db u₁ = fetchAllUsers db u₂)
    ∧ (∀ (db : List UserRow) (u : Option Principal),
        (fetchAllUsers db u).status = 200
        ∧ (fetchAllUsers db u).users = db.map projectUser) := by
  refine ⟨⟨⟨"GET", "/", [], "fetchAllUsers"⟩, ?_, rfl, rfl, rfl, rfl⟩, ?_, ?_⟩
  · simp [userRoutes]
  · intro db u₁ u₂
    rfl
  · intro db u
    exact ⟨rfl, rfl⟩

/-- C9: no user-returning operation exposes the stored password: every
user value produced by getAllUsers, getUserById, updateUser and deleteUser
is the projection of a table row onto id, email, name, role, created_at
and updated_at, and the serialized projection has no password key. -/
theorem responses_never_expose_password :
    (∀ (db : List UserRow) (p : ProjectedUser), p ∈ getAllUsers db →
        ∃ row ∈ db, p = projectUser row)
    ∧ (∀ (db : List UserRow) (id : Nat) (p : ProjectedUser),
        getUserByIdService db id = some p → ∃ row ∈ db, p = projectUser row)
    ∧ (∀ (db : List UserRow) (id : Nat) (upd : Updates) (now : Nat)
        (newDb : List UserRow) (p : ProjectedUser),
        updateUserService db id upd now = .ok (newDb, p) →
        ∃ row ∈ newDb, p = projectUser row)
    ∧ (∀ (db : List UserRow) (id : Nat) (newDb : List UserRow)
        (p : ProjectedUser),
        deleteUserService db id = .ok (newDb, p) →
        ∃ row ∈ db, p = projectUser row)
    ∧ (∀ u : ProjectedUser, "password" ∉ (projFields u).map Prod.fst) := by
  refine ⟨?_, ?_, ?_, ?_, ?_⟩
  · intro db p hp
    rcases List.mem_map.mp hp with ⟨row, hr, he⟩
    exact ⟨row, hr, he.symm⟩
  · intro db id p h
    unfold getUserByIdService at h
    rcases Option.map_eq_some'.mp h with ⟨row, hf, he⟩
    exact ⟨row, List.mem_of_find?_eq_some hf, he.symm⟩
  · intro db id upd now newDb p h
    unfold updateUserService at h
    cases hf : db.find? (fun u => u.id = id) with
    | none => rw [hf] at h; cases h
    | some u =>
        rw [hf] at h
        have hid : u.id = id := by
          have := List.find?_some hf
          simpa using this
        simp only [Except.ok.injEq, Prod.mk.injEq] at h
        refine ⟨applyUpdates u upd now, ?_, h.2.symm⟩
        rw [← h.1]
        exact List.mem_map.mpr
          ⟨u, List.mem_of_find?_eq_some hf, by simp [hid]⟩
  · intro db id newDb p h
    unfold deleteUserService at h
    cases hf : db.find? (fun u => u.id = id) with
    | none => rw [hf] at h; cases h
    | some u =>
        rw [hf] at h
        simp only [Except.ok.injEq, Prod.mk.injEq] at h
        exact ⟨u, List.mem_of_find?_eq_some hf, h.2.symm⟩
  · intro u
    simp [projFields]

/-- Witness for C9: a concrete lookup by id returns the password-free
projection of the stored row. -/
theorem responses_never_expose_password_witness :
    ∃ row ∈ [(⟨1, "n", "e@x", "pw", "user", 0, 0⟩ : UserRow)],
      (⟨1, "e@x", "n", "user", 0, 0⟩ : ProjectedUser) = projectUser row :=
  responses_never_expose_password.2.1 [⟨1, "n", "e@x", "pw", "user", 0, 0⟩] 1
    ⟨1, "e@x", "n", "user", 0, 0⟩ rfl

/-- C10: a non-admin requester can never change a role: whenever the
validated body contains a role field and the resolved principal is not an
admin, the update controller answers 403 before the persistence layer is
called and the table is unchanged; and the update schema accepts no role
value besides user and admin. -/
theorem nonadmin_role_change_rejected :
    (∀ (db : List UserRow) (pid : String) (body : RawBody) (rq : Principal)
        (now id : Nat) (updates : Updates),
        parseUserId pid = some id →
        parseUpdateBody body = some updates →
        updates.role.isSome = true →
        rq.role ≠ "admin" →
        (updateUserCtrl db pid body (some rq) now).status = 403
        ∧ (updateUserCtrl db pid body (some rq) now).db = db
        ∧ (updateUserCtrl db pid body (some rq) now).serviceCalled = false)
    ∧ (∀ r : String, validRole r = true ↔ (r = "user" ∨ r = "admin")) := by
  constructor
  · intro db pid body rq now id updates h1 h2 h3 h4
    by_cases hself : rq.id = id
    · simp [updateUserCtrl, h1, h2, h3, h4, hself]
    · simp [updateUserCtrl, h1, h2, h3, h4, hself]
  · intro r
    simp [validRole, Bool.or_eq_true, decide_eq_true_eq]

/-- Witness for C10: a non-admin trying to set a role on another user gets
a 403, the table is untouched and the service is never invoked. -/
theorem nonadmin_role_change_rejected_witness :
    (updateUserCtrl [⟨1, "n", "e@x", "pw", "user", 0, 0⟩] "1"
        ⟨none, none, some "admin"⟩ (some ⟨2, "b@x", "user"⟩) 5).status = 403
    ∧ (updateUserCtrl [⟨1, "n", "e@x", "pw", "user", 0, 0⟩] "1"
        ⟨none, none, some "admin"⟩ (some ⟨2, "b@x", "user"⟩) 5).db =
          [⟨1, "n", "e@x", "pw", "user", 0, 0⟩]
    ∧ (updateUserCtrl [⟨1, "n", "e@x", "pw", "user", 0, 0⟩] "1"
        ⟨none, none, some "admin"⟩ (some ⟨2, "b@x", "user"⟩) 5).serviceCalled
        = false :=
  nonadmin_role_change_rejected.1 [⟨1, "n", "e@x", "pw", "user", 0, 0⟩] "1"
    ⟨none, none, some "admin"⟩ ⟨2, "b@x", "user"⟩ 5 1
    ⟨none, none, some "admin"⟩ (by decide) (by decide) rfl (by decide)

end Acquisitions
